import Mathlib

/-!
Shallow embedding of the random-walk terminal program
(src/randomwalk.c, src/randomwalk.h, src/main.c).

The C program keeps a singly linked list of particles; we model the list
as a `List particle_t` (head first, i.e. in linked-list order).  The libc
`rand()` stream is modelled as a `List Nat` of successive `rand()` return
values, consumed from the front (`headD 0`); every function that calls
`rand()` threads this stream explicitly.  Machine integers are `Nat`/`Int`
with explicit `% 256` where the C code casts to `uint8_t`.
-/

namespace RandomWalk

/-- Result codes of the program (randomwalk.h). -/
inductive randomwalk_result_t where
  | RANDOMWALK_OK
  | RANDOMWALK_DONE
  | RANDOMWALK_FAIL
deriving DecidableEq, Repr

export randomwalk_result_t (RANDOMWALK_OK RANDOMWALK_DONE RANDOMWALK_FAIL)

/-- A coordinate within a plane (uint8_t fields in C). -/
structure coordinate_t where
  x : Nat
  y : Nat
deriving DecidableEq, Repr

/-- A 24-bit (RGB) color (uint8_t fields in C). -/
structure color_t where
  r : Nat
  g : Nat
  b : Nat
deriving DecidableEq, Repr

/-- Number of direction enumerators (DIRECTION_COUNT in the C enum). -/
def DIRECTION_COUNT : Nat := 8

/-- A particle of the walk.  The C `direction_t` enum value is stored as a
`Nat` (the C code stores it as an int-valued enum and uses it as an array
index).  The `next` pointer of the C struct is represented by the position
in the ambient `List particle_t`. -/
structure particle_t where
  is_alive : Bool
  direction : Nat
  color : color_t
  coord : coordinate_t
deriving DecidableEq, Repr

/-- Default probability of direction change (randomwalk.c). -/
def DEFAULT_PROB_DIR_CHANGE : Nat := 50

/-- Arguments to the random walk program (randomwalk_args_t as used by
randomwalk.c and main.c: width, height, particle_count, prob_dir_change,
delay_ms). -/
structure randomwalk_args_t where
  width : Nat
  height : Nat
  particle_count : Nat
  prob_dir_change : Nat
  delay_ms : Nat
deriving DecidableEq, Repr

/-- C function `gen_uint8`: `(uint8_t)(rand() % (max + 1) + min)`.  Consumes one
value of the rand stream; the cast to `uint8_t` is the final `% 256`. -/
def gen_uint8 (mn mx : Nat) (s : List Nat) : Nat × List Nat :=
  ((s.headD 0 % (mx + 1) + mn) % 256, s.tail)

/-- C function `gen_coord`: fails when width or height is 0, otherwise draws x then y.
The null-pointer check on the out parameter has no counterpart here. -/
def gen_coord (width height : Nat) (s : List Nat) :
    Option coordinate_t × List Nat :=
  if width = 0 ∨ height = 0 then (none, s)
  else
    let xs := gen_uint8 0 (width - 1) s
    let ys := gen_uint8 0 (height - 1) xs.2
    (some { x := xs.1, y := ys.1 }, ys.2)

/-- C function `gen_color`: three channel draws in [0, 255]. -/
def gen_color (s : List Nat) : color_t × List Nat :=
  let rs := gen_uint8 0 255 s
  let gs := gen_uint8 0 255 rs.2
  let bs := gen_uint8 0 255 gs.2
  ({ r := rs.1, g := gs.1, b := bs.1 }, bs.2)

/-- C function `gen_direction`: `gen_uint8(0, DIRECTION_COUNT - 1)`. -/
def gen_direction (s : List Nat) : Nat × List Nat :=
  gen_uint8 0 (DIRECTION_COUNT - 1) s

/-- C function `init_particles`: builds the pool in creation order (the first created
particle is the list head).  On a `gen_coord` failure the C code returns
early with RANDOMWALK_FAIL. -/
def init_particles (particle_count width height : Nat) (s : List Nat) :
    randomwalk_result_t × List particle_t × List Nat :=
  match particle_count with
  | 0 => (RANDOMWALK_OK, [], s)
  | n + 1 =>
    match gen_coord width height s with
    | (none, s1) => (RANDOMWALK_FAIL, [], s1)
    | (some c, s1) =>
      let cs := gen_color s1
      let ds := gen_direction cs.2
      let p : particle_t :=
        { is_alive := true, direction := ds.1, color := cs.1, coord := c }
      let rest := init_particles n width height ds.2
      (rest.1, p :: rest.2.1, rest.2.2)

/-- Per-direction x shift (the `delta_x` array in `walk_particles`). -/
def delta_x : List Int := [0, 1, 1, 1, 0, -1, -1, -1]

/-- Per-direction y shift (the `delta_y` array in `walk_particles`). -/
def delta_y : List Int := [-1, -1, 0, 1, 1, 1, 0, -1]

/-- Body of the `walk_particles` loop for one particle: candidate position
in signed arithmetic (`int16_t` in C, wide enough for uint8 + int8); on an
out-of-bounds candidate the particle is flagged dead, otherwise the
candidate is stored back through a `uint8_t` cast (`% 256`). -/
def walk_step (width height : Nat) (p : particle_t) : particle_t :=
  let new_x : Int := (p.coord.x : Int) + delta_x.getD p.direction 0
  let new_y : Int := (p.coord.y : Int) + delta_y.getD p.direction 0
  if new_x < 0 ∨ new_y < 0 ∨ new_x = (width : Int) ∨ new_y = (height : Int) then
    { p with is_alive := false }
  else
    { p with coord := { x := new_x.toNat % 256, y := new_y.toNat % 256 } }

/-- C function `walk_particles`: fails on a null head or a zero dimension, otherwise
walks every particle in the list. -/
def walk_particles (width height : Nat) (pool : List particle_t) :
    randomwalk_result_t × List particle_t :=
  if pool = [] ∨ width = 0 ∨ height = 0 then (RANDOMWALK_FAIL, pool)
  else (RANDOMWALK_OK, pool.map (walk_step width height))

/-- Body of the `steer_particles` loop for one particle: an unconditional
draw `gen_uint8(1, 100)`, compared against the configured probability with
0 replaced by the default; on success the direction is redrawn. -/
def steer_step (prob_dir_change : Nat) (p : particle_t) (s : List Nat) :
    particle_t × List Nat :=
  let draw := gen_uint8 1 100 s
  if draw.1 ≤ (if prob_dir_change ≠ 0 then prob_dir_change
               else DEFAULT_PROB_DIR_CHANGE) then
    let ds := gen_direction draw.2
    ({ p with direction := ds.1 }, ds.2)
  else (p, draw.2)

/-- The `steer_particles` traversal over the whole list. -/
def steer_list (prob_dir_change : Nat) :
    List particle_t → List Nat → List particle_t × List Nat
  | [], s => ([], s)
  | p :: ps, s =>
    let q := steer_step prob_dir_change p s
    let rest := steer_list prob_dir_change ps q.2
    (q.1 :: rest.1, rest.2)

/-- C function `steer_particles`: fails on a null head, otherwise steers every
particle. -/
def steer_particles (prob_dir_change : Nat) (pool : List particle_t)
    (s : List Nat) : randomwalk_result_t × List particle_t × List Nat :=
  if pool = [] then (RANDOMWALK_FAIL, pool, s)
  else
    let r := steer_list prob_dir_change pool s
    (RANDOMWALK_OK, r.1, r.2)

/-- C function `draw_particles`: fails on a null head; otherwise only prints (no
particle state is touched, no rand consumed). -/
def draw_particles (pool : List particle_t) : randomwalk_result_t :=
  if pool = [] then RANDOMWALK_FAIL else RANDOMWALK_OK

/-- First loop of `validate_particles`: deallocate dead particles from the
head of the list until the head is alive (or the list is empty). -/
def drop_dead_head : List particle_t → List particle_t
  | [] => []
  | p :: ps => if p.is_alive then p :: ps else drop_dead_head ps

/-- Second loop of `validate_particles`: starting from an alive head, each
dead successor node is unlinked and freed, alive successors are kept; this
models the walk over the `next` chain. -/
def cull_after : List particle_t → List particle_t
  | [] => []
  | q :: qs => if q.is_alive then q :: cull_after qs else cull_after qs

/-- The list surviving `validate_particles`: phase one then phase two. -/
def validate_list (pool : List particle_t) : List particle_t :=
  match drop_dead_head pool with
  | [] => []
  | p :: ps => p :: cull_after ps

/-- C function `validate_particles`: fails on a null head; otherwise culls the dead
and reports RANDOMWALK_OK when particles remain, RANDOMWALK_DONE when the
pool emptied. -/
def validate_particles (pool : List particle_t) :
    randomwalk_result_t × List particle_t :=
  if pool = [] then (RANDOMWALK_FAIL, pool)
  else
    let pool2 := validate_list pool
    (if pool2 = [] then RANDOMWALK_DONE else RANDOMWALK_OK, pool2)

/-- C function `compute_particles`: one frame — draw, steer, walk, validate — with a
short-circuit return after the first phase whose result is not
RANDOMWALK_OK. -/
def compute_particles (width height prob_dir_change : Nat)
    (pool : List particle_t) (s : List Nat) :
    randomwalk_result_t × List particle_t × List Nat :=
  let r1 := draw_particles pool
  if r1 ≠ RANDOMWALK_OK then (r1, pool, s)
  else
    let st := steer_particles prob_dir_change pool s
    if st.1 ≠ RANDOMWALK_OK then st
    else
      let wk := walk_particles width height st.2.1
      if wk.1 ≠ RANDOMWALK_OK then (wk.1, wk.2, st.2.2)
      else
        let va := validate_particles wk.2
        (va.1, va.2, st.2.2)

/-- C function `destroy_particles`: recursive teardown; from `randomwalk` the
particle pointer is never null, so the result is always RANDOMWALK_OK. -/
def destroy_particles : List particle_t → randomwalk_result_t
  | [] => RANDOMWALK_OK
  | _ :: ps => destroy_particles ps

/-- The `while (result == RANDOMWALK_OK)` loop of `randomwalk`, with fuel
bounding the number of iterations.  Returns the final result, pool, rand
stream, and the number of frames executed (`compute_particles` calls). -/
def randomwalk_loop (width height prob_dir_change : Nat) :
    Nat → randomwalk_result_t → List particle_t → List Nat →
    randomwalk_result_t × List particle_t × List Nat × Nat
  | 0, r, pool, s => (r, pool, s, 0)
  | fuel + 1, r, pool, s =>
    if r = RANDOMWALK_OK then
      let c := compute_particles width height prob_dir_change pool s
      let rest := randomwalk_loop width height prob_dir_change fuel c.1 c.2.1 c.2.2
      (rest.1, rest.2.1, rest.2.2.1, rest.2.2.2 + 1)
    else (r, pool, s, 0)

/-- C function `randomwalk`: rejects prob_dir_change > 100, initializes particles,
runs the loop, and on a non-DONE result replaces it with the result of
`destroy_particles`.  Returns the final result, the number of frames the
loop executed, and the number of particles created at initialization. -/
def randomwalk (args : randomwalk_args_t) (s : List Nat) (fuel : Nat) :
    randomwalk_result_t × Nat × Nat :=
  if 100 < args.prob_dir_change then (RANDOMWALK_FAIL, 0, 0)
  else
    let ini := init_particles args.particle_count args.width args.height s
    let lp := randomwalk_loop args.width args.height args.prob_dir_change
      fuel ini.1 ini.2.1 ini.2.2
    let final :=
      if lp.1 ≠ RANDOMWALK_DONE then destroy_particles lp.2.1 else lp.1
    (final, lp.2.2.2, ini.2.1.length)

/-- C function `validate_required_args` (main.c): width, height and particle_count
must be non-zero. -/
def validate_required_args (args : randomwalk_args_t) : Bool :=
  args.width ≠ 0 && args.height ≠ 0 && args.particle_count ≠ 0

/-- Iterating `compute_particles` over n frames (threading pool and rand
stream), regardless of the per-frame result: used to state reachability
invariants. -/
def frames (width height prob_dir_change : Nat) :
    Nat → List particle_t → List Nat → List particle_t × List Nat
  | 0, pool, s => (pool, s)
  | n + 1, pool, s =>
    let c := compute_particles width height prob_dir_change pool s
    frames width height prob_dir_change n c.2.1 c.2.2

end RandomWalk

/-! ### Helper lemmas -/

namespace RandomWalk

/-- The plane-and-direction invariant carried by every particle in the
pool: coordinates inside the plane and a valid direction enumerator. -/
def good (width height : Nat) (p : particle_t) : Prop :=
  p.coord.x < width ∧ p.coord.y < height ∧ p.direction < DIRECTION_COUNT

theorem gen_uint8_zero_lt (m : Nat) (s : List Nat) (hm : m < 256) :
    (gen_uint8 0 m s).1 < m + 1 := by
  show (s.headD 0 % (m + 1) + 0) % 256 < m + 1
  have h1 : s.headD 0 % (m + 1) < m + 1 := Nat.mod_lt _ (by omega)
  rw [Nat.add_zero, Nat.mod_eq_of_lt (by omega)]
  exact h1

theorem gen_direction_lt (s : List Nat) :
    (gen_direction s).1 < DIRECTION_COUNT :=
  gen_uint8_zero_lt 7 s (by omega)

theorem gen_coord_spec (width height : Nat) (s : List Nat)
    (hw : 0 < width) (hw2 : width ≤ 255) (hh : 0 < height) (hh2 : height ≤ 255) :
    ∃ c s2, gen_coord width height s = (some c, s2) ∧
      c.x < width ∧ c.y < height := by
  have hw0 : ¬(width = 0 ∨ height = 0) := by omega
  refine ⟨{ x := (gen_uint8 0 (width - 1) s).1,
            y := (gen_uint8 0 (height - 1) (gen_uint8 0 (width - 1) s).2).1 },
          (gen_uint8 0 (height - 1) (gen_uint8 0 (width - 1) s).2).2,
          by simp [gen_coord, hw0], ?_, ?_⟩
  · have := gen_uint8_zero_lt (width - 1) s (by omega)
    simpa [Nat.sub_add_cancel hw] using this
  · have := gen_uint8_zero_lt (height - 1) (gen_uint8 0 (width - 1) s).2 (by omega)
    simpa [Nat.sub_add_cancel hh] using this

theorem init_particles_good (c width height : Nat) (s : List Nat)
    (hw : 0 < width) (hw2 : width ≤ 255) (hh : 0 < height) (hh2 : height ≤ 255) :
    ∀ p ∈ (init_particles c width height s).2.1,
      p.is_alive = true ∧ good width height p := by
  induction c generalizing s with
  | zero => simp [init_particles]
  | succ n ih =>
    obtain ⟨co, s2, hco, hx, hy⟩ := gen_coord_spec width height s hw hw2 hh hh2
    intro p hp
    rw [init_particles, hco] at hp
    rcases List.mem_cons.mp hp with h | h
    · subst h
      exact ⟨rfl, hx, hy, gen_direction_lt _⟩
    · exact ih _ p h

theorem delta_x_bounds (d : Nat) :
    -1 ≤ delta_x.getD d 0 ∧ delta_x.getD d 0 ≤ 1 := by
  match d with
  | 0 | 1 | 2 | 3 | 4 | 5 | 6 | 7 => decide
  | n + 8 =>
    rw [List.getD_eq_default _ _ (by simp [delta_x])]
    decide

theorem delta_y_bounds (d : Nat) :
    -1 ≤ delta_y.getD d 0 ∧ delta_y.getD d 0 ≤ 1 := by
  match d with
  | 0 | 1 | 2 | 3 | 4 | 5 | 6 | 7 => decide
  | n + 8 =>
    rw [List.getD_eq_default _ _ (by simp [delta_y])]
    decide

theorem steer_step_spec (prob : Nat) (p : particle_t) (s : List Nat) :
    (steer_step prob p s).1.coord = p.coord ∧
    (steer_step prob p s).1.is_alive = p.is_alive ∧
    ((steer_step prob p s).1.direction = p.direction ∨
      (steer_step prob p s).1.direction < DIRECTION_COUNT) := by
  by_cases h : (gen_uint8 1 100 s).1 ≤
      (if prob ≠ 0 then prob else DEFAULT_PROB_DIR_CHANGE)
  · simp only [steer_step, if_pos h]
    exact ⟨trivial, trivial, Or.inr (gen_direction_lt _)⟩
  · simp only [steer_step, if_neg h]
    exact ⟨trivial, trivial, Or.inl trivial⟩

theorem steer_list_mem (prob : Nat) (pool : List particle_t) (s : List Nat) :
    ∀ q ∈ (steer_list prob pool s).1, ∃ p ∈ pool,
      q.coord = p.coord ∧ q.is_alive = p.is_alive ∧
      (q.direction = p.direction ∨ q.direction < DIRECTION_COUNT) := by
  induction pool generalizing s with
  | nil => simp [steer_list]
  | cons p ps ih =>
    intro q hq
    rw [steer_list] at hq
    rcases List.mem_cons.mp hq with h | h
    · subst h
      obtain ⟨h1, h2, h3⟩ := steer_step_spec prob p s
      exact ⟨p, List.mem_cons_self p ps, h1, h2, h3⟩
    · obtain ⟨p2, hp2, hrest⟩ := ih _ q h
      exact ⟨p2, List.mem_cons_of_mem p hp2, hrest⟩

theorem steer_list_length (prob : Nat) (pool : List particle_t) (s : List Nat) :
    (steer_list prob pool s).1.length = pool.length := by
  induction pool generalizing s with
  | nil => rfl
  | cons p ps ih => simp [steer_list, ih]

theorem walk_step_good (width height : Nat) (p : particle_t)
    (hw2 : width ≤ 255) (hh2 : height ≤ 255) (hp : good width height p) :
    good width height (walk_step width height p) ∧
    (walk_step width height p).direction = p.direction := by
  obtain ⟨hx, hy, hd⟩ := hp
  obtain ⟨hdx1, hdx2⟩ := delta_x_bounds p.direction
  obtain ⟨hdy1, hdy2⟩ := delta_y_bounds p.direction
  by_cases hguard : ((p.coord.x : Int) + delta_x.getD p.direction 0 < 0 ∨
      (p.coord.y : Int) + delta_y.getD p.direction 0 < 0 ∨
      (p.coord.x : Int) + delta_x.getD p.direction 0 = (width : Int) ∨
      (p.coord.y : Int) + delta_y.getD p.direction 0 = (height : Int))
  · simp only [walk_step, if_pos hguard]
    exact ⟨⟨hx, hy, hd⟩, trivial⟩
  · simp only [walk_step, if_neg hguard]
    push_neg at hguard
    obtain ⟨h1, h2, h3, h4⟩ := hguard
    refine ⟨⟨?_, ?_, hd⟩, trivial⟩
    · show ((p.coord.x : Int) + delta_x.getD p.direction 0).toNat % 256 < width
      rw [Nat.mod_eq_of_lt (by omega)]
      omega
    · show ((p.coord.y : Int) + delta_y.getD p.direction 0).toNat % 256 < height
      rw [Nat.mod_eq_of_lt (by omega)]
      omega

theorem cull_after_eq_filter (l : List particle_t) :
    cull_after l = l.filter (fun p => p.is_alive) := by
  induction l with
  | nil => rfl
  | cons p ps ih =>
    rw [cull_after, List.filter_cons]
    by_cases h : p.is_alive <;> simp [h, ih]

theorem validate_list_cons_dead (p : particle_t) (ps : List particle_t)
    (h : p.is_alive = false) :
    validate_list (p :: ps) = validate_list ps := by
  unfold validate_list
  rw [drop_dead_head, if_neg (by simp [h])]

theorem validate_list_eq_filter (pool : List particle_t) :
    validate_list pool = pool.filter (fun p => p.is_alive) := by
  induction pool with
  | nil => rfl
  | cons p ps ih =>
    by_cases h : p.is_alive = true
    · rw [validate_list, drop_dead_head, if_pos h]
      show p :: cull_after ps = List.filter (fun p => p.is_alive) (p :: ps)
      rw [cull_after_eq_filter]
      simp [List.filter_cons, h]
    · rw [validate_list_cons_dead p ps (by simpa using h), ih]
      simp [List.filter_cons, h]

theorem steer_list_good (width height prob : Nat) (pool : List particle_t)
    (s : List Nat) (hpool : ∀ p ∈ pool, good width height p) :
    ∀ q ∈ (steer_list prob pool s).1, good width height q := by
  intro q hq
  obtain ⟨p, hp, hc, _, hd⟩ := steer_list_mem prob pool s q hq
  obtain ⟨hx, hy, hdir⟩ := hpool p hp
  refine ⟨?_, ?_, ?_⟩
  · rw [hc]; exact hx
  · rw [hc]; exact hy
  · rcases hd with h | h
    · rw [h]; exact hdir
    · exact h

theorem walk_map_good (width height : Nat) (pool : List particle_t)
    (hw2 : width ≤ 255) (hh2 : height ≤ 255)
    (hpool : ∀ p ∈ pool, good width height p) :
    ∀ q ∈ pool.map (walk_step width height), good width height q := by
  intro q hq
  obtain ⟨p, hp, hpq⟩ := List.mem_map.mp hq
  rw [← hpq]
  exact (walk_step_good width height p hw2 hh2 (hpool p hp)).1

theorem validate_particles_mem (pool : List particle_t) :
    ∀ q ∈ (validate_particles pool).2, q ∈ pool := by
  intro q hq
  by_cases hp : pool = []
  · subst hp; simp [validate_particles] at hq
  · simp only [validate_particles, if_neg hp] at hq
    rw [validate_list_eq_filter] at hq
    exact List.mem_of_mem_filter hq

theorem compute_particles_good (width height prob : Nat)
    (pool : List particle_t) (s : List Nat)
    (hw2 : width ≤ 255) (hh2 : height ≤ 255)
    (hpool : ∀ p ∈ pool, good width height p) :
    ∀ q ∈ (compute_particles width height prob pool s).2.1,
      good width height q := by
  by_cases hp : pool = []
  · subst hp; simp [compute_particles, draw_particles]
  · have hdraw : draw_particles pool = RANDOMWALK_OK := by
      simp [draw_particles, hp]
    have hsg : ∀ q ∈ (steer_list prob pool s).1, good width height q :=
      steer_list_good width height prob pool s hpool
    by_cases hwh : width = 0 ∨ height = 0
    · have hwalk : walk_particles width height (steer_list prob pool s).1 =
          (RANDOMWALK_FAIL, (steer_list prob pool s).1) := by
        simp only [walk_particles]
        rw [if_pos (by tauto)]
      intro q hq
      simp only [compute_particles, hdraw, steer_particles, if_neg hp,
        hwalk] at hq
      simp at hq
      exact hsg q hq
    · push_neg at hwh
      have hwalk : walk_particles width height (steer_list prob pool s).1 =
          (RANDOMWALK_OK,
            (steer_list prob pool s).1.map (walk_step width height)) := by
        have hsl : (steer_list prob pool s).1 ≠ [] := by
          have h1 : 0 < (steer_list prob pool s).1.length := by
            rw [steer_list_length]
            exact List.length_pos.mpr hp
          exact List.length_pos.mp h1
        simp only [walk_particles]
        rw [if_neg (by tauto)]
      intro q hq
      simp only [compute_particles, hdraw, steer_particles, if_neg hp,
        hwalk] at hq
      simp at hq
      have hq2 := validate_particles_mem _ q hq
      exact walk_map_good width height _ hw2 hh2 hsg q hq2

theorem frames_good (width height prob n : Nat) (pool : List particle_t)
    (s : List Nat) (hw2 : width ≤ 255) (hh2 : height ≤ 255)
    (hpool : ∀ p ∈ pool, good width height p) :
    ∀ q ∈ (frames width height prob n pool s).1, good width height q := by
  induction n generalizing pool s with
  | zero => simpa [frames] using hpool
  | succ m ih =>
    rw [frames]
    exact ih _ _
      (compute_particles_good width height prob pool s hw2 hh2 hpool)

theorem randomwalk_loop_stop (width height prob n : Nat)
    (r : randomwalk_result_t) (pool : List particle_t) (s : List Nat)
    (hr : r ≠ RANDOMWALK_OK) :
    randomwalk_loop width height prob n r pool s = (r, pool, s, 0) := by
  cases n <;> simp [randomwalk_loop, hr]

theorem compute_particles_norm (width height prob : Nat)
    (pool : List particle_t) (s : List Nat)
    (hp : pool ≠ []) (hw : width ≠ 0) (hh : height ≠ 0) :
    compute_particles width height prob pool s =
      (if ((steer_list prob pool s).1.map (walk_step width height)).filter
          (fun p => p.is_alive) = [] then RANDOMWALK_DONE else RANDOMWALK_OK,
       ((steer_list prob pool s).1.map (walk_step width height)).filter
          (fun p => p.is_alive),
       (steer_list prob pool s).2) := by
  have hdraw : draw_particles pool = RANDOMWALK_OK := by
    simp [draw_particles, hp]
  have hsl : (steer_list prob pool s).1 ≠ [] := by
    have h1 : 0 < (steer_list prob pool s).1.length := by
      rw [steer_list_length]
      exact List.length_pos.mpr hp
    exact List.length_pos.mp h1
  have hwalk : walk_particles width height (steer_list prob pool s).1 =
      (RANDOMWALK_OK,
        (steer_list prob pool s).1.map (walk_step width height)) := by
    simp only [walk_particles]
    rw [if_neg (by tauto)]
  have hmap : (steer_list prob pool s).1.map (walk_step width height) ≠ [] := by
    simpa [List.map_eq_nil_iff] using hsl
  simp only [compute_particles, hdraw, steer_particles, if_neg hp, hwalk,
    validate_particles, if_neg hmap, validate_list_eq_filter]
  simp

/-! ### Claim theorems -/

/-- C1: in the move phase, a particle whose candidate position (current
position plus the unit delta of its direction, in signed arithmetic) has a
negative coordinate or one equal to the plane width/height is flagged dead
with its position unchanged; otherwise its position becomes the candidate
position and its alive flag is untouched. -/
theorem spec_c1 (width height : Nat) (p : particle_t)
    (hx : p.coord.x < width) (hy : p.coord.y < height)
    (hw2 : width ≤ 255) (hh2 : height ≤ 255) :
    (((p.coord.x : Int) + delta_x.getD p.direction 0 < 0 ∨
      (p.coord.y : Int) + delta_y.getD p.direction 0 < 0 ∨
      (p.coord.x : Int) + delta_x.getD p.direction 0 = (width : Int) ∨
      (p.coord.y : Int) + delta_y.getD p.direction 0 = (height : Int)) →
      walk_step width height p = { p with is_alive := false }) ∧
    (¬((p.coord.x : Int) + delta_x.getD p.direction 0 < 0 ∨
       (p.coord.y : Int) + delta_y.getD p.direction 0 < 0 ∨
       (p.coord.x : Int) + delta_x.getD p.direction 0 = (width : Int) ∨
       (p.coord.y : Int) + delta_y.getD p.direction 0 = (height : Int)) →
      walk_step width height p =
        { p with coord :=
            { x := ((p.coord.x : Int) + delta_x.getD p.direction 0).toNat,
              y := ((p.coord.y : Int) + delta_y.getD p.direction 0).toNat } }) := by
  constructor
  · intro hg
    simp only [walk_step, if_pos hg]
  · intro hg
    simp only [walk_step, if_neg hg]
    obtain ⟨hdx1, hdx2⟩ := delta_x_bounds p.direction
    obtain ⟨hdy1, hdy2⟩ := delta_y_bounds p.direction
    push_neg at hg
    obtain ⟨h1, h2, h3, h4⟩ := hg
    have hxm : ((p.coord.x : Int) + delta_x.getD p.direction 0).toNat % 256 =
        ((p.coord.x : Int) + delta_x.getD p.direction 0).toNat :=
      Nat.mod_eq_of_lt (by omega)
    have hym : ((p.coord.y : Int) + delta_y.getD p.direction 0).toNat % 256 =
        ((p.coord.y : Int) + delta_y.getD p.direction 0).toNat :=
      Nat.mod_eq_of_lt (by omega)
    rw [hxm, hym]

/-- Witness for C1: the spec scenario particle at (1, 0) facing West on a
3-wide, 1-high plane moves to (0, 0). -/
theorem spec_c1_witness :
    (1 : Nat) < 3 ∧
    walk_step 3 1 (⟨true, 6, ⟨0, 0, 0⟩, ⟨1, 0⟩⟩ : particle_t) =
      (⟨true, 6, ⟨0, 0, 0⟩, ⟨0, 0⟩⟩ : particle_t) :=
  ⟨by decide,
    ((spec_c1 3 1 (⟨true, 6, ⟨0, 0, 0⟩, ⟨1, 0⟩⟩ : particle_t)
      (by decide) (by decide) (by decide) (by decide)).2 (by decide)).trans
        (by decide)⟩

/-- C2: from any pool created by init_particles on a plane with positive
uint8 dimensions and advanced by any number of frames, every alive
particle is at coordinates inside the plane. -/
theorem spec_c2 (width height prob count n : Nat) (s : List Nat)
    (hw : 0 < width) (hw2 : width ≤ 255)
    (hh : 0 < height) (hh2 : height ≤ 255) :
    ∀ p ∈ (frames width height prob n
        (init_particles count width height s).2.1
        (init_particles count width height s).2.2).1,
      p.is_alive = true → p.coord.x < width ∧ p.coord.y < height := by
  intro p hp _
  have hinit : ∀ q ∈ (init_particles count width height s).2.1,
      good width height q := by
    intro q hq
    exact (init_particles_good count width height s hw hw2 hh hh2 q hq).2
  have h := frames_good width height prob n _ _ hw2 hh2 hinit p hp
  exact ⟨h.1, h.2.1⟩

/-- Witness for C2: one particle on a 3 by 3 plane, zero frames. -/
theorem spec_c2_witness :
    (0 : Nat) < 3 ∧
    ((⟨true, 0, ⟨0, 0, 0⟩, ⟨0, 0⟩⟩ : particle_t).is_alive = true →
      (⟨true, 0, ⟨0, 0, 0⟩, ⟨0, 0⟩⟩ : particle_t).coord.x < 3 ∧
      (⟨true, 0, ⟨0, 0, 0⟩, ⟨0, 0⟩⟩ : particle_t).coord.y < 3) :=
  ⟨by decide,
    spec_c2 3 3 50 1 0 [] (by decide) (by decide) (by decide) (by decide)
      (⟨true, 0, ⟨0, 0, 0⟩, ⟨0, 0⟩⟩ : particle_t) (by decide)⟩

/-- C3 counterexample: calling randomwalk with particle_count = 0 does not
report a failure before any frame: the loop executes one frame (the frame
count is 1, not 0) and the final result is RANDOMWALK_OK, a success. -/
theorem spec_c3_counterexample :
    randomwalk (⟨3, 3, 0, 50, 0⟩ : randomwalk_args_t) [] 5 =
      (RANDOMWALK_OK, 1, 0) ∧
    RANDOMWALK_OK ≠ RANDOMWALK_FAIL := by decide

/-- C3 amended: particle_count = 0 is rejected by the command-line
validation in main (validate_required_args is false, so randomwalk is
never invoked from the CLI); randomwalk itself performs no such check:
init_particles succeeds with an empty pool, the loop runs one frame whose
draw phase fails, and after teardown randomwalk returns RANDOMWALK_OK. -/
theorem spec_c3_amended (args : randomwalk_args_t) (s : List Nat)
    (fuel : Nat) (hc : args.particle_count = 0)
    (hprob : args.prob_dir_change ≤ 100) (hf : 0 < fuel) :
    validate_required_args args = false ∧
    init_particles args.particle_count args.width args.height s =
      (RANDOMWALK_OK, [], s) ∧
    randomwalk args s fuel = (RANDOMWALK_OK, 1, 0) := by
  refine ⟨?_, ?_, ?_⟩
  · simp [validate_required_args, hc]
  · rw [hc]
    rfl
  · obtain ⟨m, rfl⟩ : ∃ m, fuel = m + 1 := ⟨fuel - 1, by omega⟩
    have hnp : ¬(100 < args.prob_dir_change) := by omega
    have hcomp : compute_particles args.width args.height
        args.prob_dir_change [] s = (RANDOMWALK_FAIL, [], s) := by
      simp [compute_particles, draw_particles]
    simp [randomwalk, if_neg hnp, hc, init_particles, randomwalk_loop,
      hcomp, randomwalk_loop_stop, destroy_particles]

/-- Witness for the amended C3. -/
theorem spec_c3_amended_witness :
    validate_required_args (⟨3, 3, 0, 50, 0⟩ : randomwalk_args_t) = false ∧
    init_particles 0 3 3 [] = (RANDOMWALK_OK, [], []) ∧
    randomwalk (⟨3, 3, 0, 50, 0⟩ : randomwalk_args_t) [] 1 =
      (RANDOMWALK_OK, 1, 0) :=
  spec_c3_amended (⟨3, 3, 0, 50, 0⟩ : randomwalk_args_t) [] 1
    (by decide) (by decide) (by decide)

/-- C4 evaluation at the failing input: the steer draw gen_uint8(1, 100)
on the rand value 100 yields 101, outside [1, 100]; consequently with
direction-change probability 100 the particle is not redrawn (its
direction 3 survives the steer phase), contradicting the claim that
probability 100 forces a redraw for every RNG state. -/
theorem spec_c4_code_eval :
    gen_uint8 1 100 [100] = (101, []) ∧
    steer_particles 100 [(⟨true, 3, ⟨1, 2, 3⟩, ⟨5, 5⟩⟩ : particle_t)] [100] =
      (RANDOMWALK_OK, [(⟨true, 3, ⟨1, 2, 3⟩, ⟨5, 5⟩⟩ : particle_t)], []) := by
  decide

/-- C5 counterexample: with the configured probability 0 and rand values
[0, 1], the single particle's direction changes from 0 to 1: the code
treats 0 as the unset sentinel and substitutes the default 50, so a draw
of 1 (at most 50) redraws the direction. -/
theorem spec_c5_counterexample :
    ((steer_particles 0 [(⟨true, 0, ⟨0, 0, 0⟩, ⟨5, 5⟩⟩ : particle_t)]
        [0, 1]).2.1.headD (⟨true, 0, ⟨0, 0, 0⟩, ⟨5, 5⟩⟩ : particle_t)).direction ≠
      (⟨true, 0, ⟨0, 0, 0⟩, ⟨5, 5⟩⟩ : particle_t).direction := by decide

/-- C5 amended: a configured probability of 0 is not distinct from unset:
the steer phase with probability 0 behaves identically to the steer phase
with the default probability 50, for every pool and every RNG state. -/
theorem spec_c5_amended (pool : List particle_t) (s : List Nat) :
    steer_particles 0 pool s =
      steer_particles DEFAULT_PROB_DIR_CHANGE pool s := by
  have hstep : ∀ (p : particle_t) (s2 : List Nat),
      steer_step 0 p s2 = steer_step DEFAULT_PROB_DIR_CHANGE p s2 := by
    intro p s2
    simp [steer_step, DEFAULT_PROB_DIR_CHANGE]
  have hlist : ∀ (l : List particle_t) (s2 : List Nat),
      steer_list 0 l s2 = steer_list DEFAULT_PROB_DIR_CHANGE l s2 := by
    intro l
    induction l with
    | nil => intro s2; rfl
    | cons p ps ih =>
      intro s2
      simp [steer_list, hstep, ih]
  simp [steer_particles, hlist]

/-- C6: a configured direction-change probability above 100 makes
randomwalk return RANDOMWALK_FAIL immediately: zero frames execute and
zero particles are created. -/
theorem spec_c6 (args : randomwalk_args_t) (s : List Nat) (fuel : Nat)
    (h : 100 < args.prob_dir_change) :
    randomwalk args s fuel = (RANDOMWALK_FAIL, 0, 0) := by
  simp [randomwalk, h]

/-- Witness for C6: probability 150 is rejected. -/
theorem spec_c6_witness :
    (100 : Nat) < 150 ∧
    randomwalk (⟨3, 3, 1, 150, 0⟩ : randomwalk_args_t) [] 5 =
      (RANDOMWALK_FAIL, 0, 0) :=
  ⟨by decide, spec_c6 (⟨3, 3, 1, 150, 0⟩ : randomwalk_args_t) [] 5 (by decide)⟩

/-- C7: the cull operation keeps exactly the alive particles of the input
pool, in their original order. -/
theorem spec_c7 (pool : List particle_t) :
    (validate_particles pool).2 = pool.filter (fun p => p.is_alive) := by
  by_cases hp : pool = []
  · subst hp; rfl
  · simp only [validate_particles, if_neg hp]
    exact validate_list_eq_filter pool

/-- C8: one frame returns RANDOMWALK_FAIL from the draw phase on an empty
pool (with nothing else run), RANDOMWALK_FAIL from the move phase when a
plane dimension is 0, and otherwise RANDOMWALK_DONE exactly when the pool
is empty after cull and RANDOMWALK_OK exactly when it is not. -/
theorem spec_c8 (width height prob : Nat) (pool : List particle_t)
    (s : List Nat) :
    (pool = [] →
      compute_particles width height prob pool s =
        (RANDOMWALK_FAIL, pool, s)) ∧
    (pool ≠ [] → (width = 0 ∨ height = 0) →
      (compute_particles width height prob pool s).1 = RANDOMWALK_FAIL) ∧
    (pool ≠ [] → width ≠ 0 → height ≠ 0 →
      ((compute_particles width height prob pool s).1 = RANDOMWALK_DONE ↔
        (compute_particles width height prob pool s).2.1 = []) ∧
      ((compute_particles width height prob pool s).1 = RANDOMWALK_OK ↔
        (compute_particles width height prob pool s).2.1 ≠ [])) := by
  refine ⟨?_, ?_, ?_⟩
  · intro hp
    subst hp
    simp [compute_particles, draw_particles]
  · intro hp hwh
    have hdraw : draw_particles pool = RANDOMWALK_OK := by
      simp [draw_particles, hp]
    have hwalk : walk_particles width height (steer_list prob pool s).1 =
        (RANDOMWALK_FAIL, (steer_list prob pool s).1) := by
      simp only [walk_particles]
      rw [if_pos (by tauto)]
    simp [compute_particles, hdraw, steer_particles, hp, hwalk]
  · intro hp hw hh
    rw [compute_particles_norm width height prob pool s hp hw hh]
    by_cases hf : ((steer_list prob pool s).1.map
        (walk_step width height)).filter (fun p => p.is_alive) = []
    · simp [hf]
    · simp [hf]

/-- Witness for C8: one alive particle at (1, 1) on a 3 by 3 plane. -/
theorem spec_c8_witness :
    ((compute_particles 3 3 50 [(⟨true, 2, ⟨0, 0, 0⟩, ⟨1, 1⟩⟩ : particle_t)]
        []).1 = RANDOMWALK_DONE ↔
      (compute_particles 3 3 50 [(⟨true, 2, ⟨0, 0, 0⟩, ⟨1, 1⟩⟩ : particle_t)]
        []).2.1 = []) ∧
    ((compute_particles 3 3 50 [(⟨true, 2, ⟨0, 0, 0⟩, ⟨1, 1⟩⟩ : particle_t)]
        []).1 = RANDOMWALK_OK ↔
      (compute_particles 3 3 50 [(⟨true, 2, ⟨0, 0, 0⟩, ⟨1, 1⟩⟩ : particle_t)]
        []).2.1 ≠ []) :=
  (spec_c8 3 3 50 [(⟨true, 2, ⟨0, 0, 0⟩, ⟨1, 1⟩⟩ : particle_t)] []).2.2
    (by decide) (by decide) (by decide)

/-- C9: one frame never increases the number of particles in the pool. -/
theorem spec_c9 (width height prob : Nat) (pool : List particle_t)
    (s : List Nat) :
    (compute_particles width height prob pool s).2.1.length ≤
      pool.length := by
  by_cases hp : pool = []
  · subst hp
    simp [compute_particles, draw_particles]
  · by_cases hwh : width = 0 ∨ height = 0
    · have hdraw : draw_particles pool = RANDOMWALK_OK := by
        simp [draw_particles, hp]
      have hwalk : walk_particles width height (steer_list prob pool s).1 =
          (RANDOMWALK_FAIL, (steer_list prob pool s).1) := by
        simp only [walk_particles]
        rw [if_pos (by tauto)]
      simp [compute_particles, hdraw, steer_particles, hp, hwalk,
        steer_list_length]
    · push_neg at hwh
      rw [compute_particles_norm width height prob pool s hp hwh.1 hwh.2]
      calc (((steer_list prob pool s).1.map
              (walk_step width height)).filter
              (fun p => p.is_alive)).length ≤
            ((steer_list prob pool s).1.map (walk_step width height)).length :=
          List.length_filter_le _ _
        _ = (steer_list prob pool s).1.length := List.length_map _ _
        _ = pool.length := steer_list_length prob pool s

/-- C10: starting from init_particles on a positive uint8 plane and
advancing any number of frames, every particle's direction is a valid
enumerator (below DIRECTION_COUNT), hence in bounds for the delta_x and
delta_y arrays indexed by it in the move phase. -/
theorem spec_c10 (width height prob count n : Nat) (s : List Nat)
    (hw : 0 < width) (hw2 : width ≤ 255)
    (hh : 0 < height) (hh2 : height ≤ 255) :
    ∀ p ∈ (frames width height prob n
        (init_particles count width height s).2.1
        (init_particles count width height s).2.2).1,
      p.direction < DIRECTION_COUNT ∧
      p.direction < delta_x.length ∧ p.direction < delta_y.length := by
  intro p hp
  have hinit : ∀ q ∈ (init_particles count width height s).2.1,
      good width height q := by
    intro q hq
    exact (init_particles_good count width height s hw hw2 hh hh2 q hq).2
  have h := frames_good width height prob n _ _ hw2 hh2 hinit p hp
  refine ⟨h.2.2, ?_, ?_⟩
  · simpa [delta_x, DIRECTION_COUNT] using h.2.2
  · simpa [delta_y, DIRECTION_COUNT] using h.2.2

/-- Witness for C10: one particle on a 3 by 3 plane, one frame. -/
theorem spec_c10_witness :
    (0 : Nat) < 3 ∧
    ((⟨true, 0, ⟨0, 0, 0⟩, ⟨0, 0⟩⟩ : particle_t).direction < DIRECTION_COUNT ∧
      (⟨true, 0, ⟨0, 0, 0⟩, ⟨0, 0⟩⟩ : particle_t).direction < delta_x.length ∧
      (⟨true, 0, ⟨0, 0, 0⟩, ⟨0, 0⟩⟩ : particle_t).direction < delta_y.length) :=
  ⟨by decide,
    spec_c10 3 3 50 1 0 [] (by decide) (by decide) (by decide) (by decide)
      (⟨true, 0, ⟨0, 0, 0⟩, ⟨0, 0⟩⟩ : particle_t) (by decide)⟩

end RandomWalk
